import Mathlib

/-!
# Verification of the archivanima upload subsystem

Shallow embedding of the resumable chunked-upload subsystem of the
archivanima repository: the upload status state machine (`src/app/db.rs`),
the filesystem storage backend (`src/app/storage.rs`, `src/utils/mod.rs`),
the upload ledger operations (`src/app/db.rs`), the HTTP handlers
(`src/app/api.rs`), the page iterator (`src/utils/page_stream.rs`,
`src/utils/pagination.rs`) and the storage-cleanup sweeper (`src/main.rs`).

Modelling conventions:
* Rust `u64` values are `Nat`, `i64` values are `Int`; the `as` casts that
  occur in the source are modelled explicitly (`u64_as_i64`, `i64_as_u64`).
* The database is modelled as in-memory state threaded through the
  operations; database-connection failures are not modelled (every SQL
  statement executes), which matches the level at which the specification
  speaks.  Filesystem contents are association lists from file name to
  byte list; storage-level I/O faults, where a claim needs them, are
  supplied as explicit oracles.
* Rust `Result<T, Error>` is `Except Error T`; a `panic!`/`unwrap` on
  `None` is made visible as a distinguished `HandlerResult.panicked`
  outcome.
-/

namespace Archivanima

/-! ## Error type, from `src/error.rs` (`enum Error`).
String payloads are dropped; they do not influence control flow. -/

inductive Error where
  | Misc
  | Sqlx
  | PasswordHash
  | PoolNotFound
  | Rocket
  | AccessDenied
  | DoesNotExist
  | InvalidPagination
  | PageDoesNotExist
  | IOError
  | ValidationFailed
  | InvalidUploadState
  | InvalidContentRange
  | Unknown
deriving DecidableEq, Repr

/-! `IOError` stands for the Rust variant named after input/output errors
(`Error::IO(String)`), and `ValidationFailed` for
`Error::ValidationErrors(validator::ValidationErrors)`. -/

/-- Kinds of `std::io::Error` the subsystem distinguishes: `NotFound`
(checked by `try_remove_file`) versus everything else. -/
inductive IOErrorKind where
  | NotFound
  | Other
deriving DecidableEq, Repr

/-! ## State machine, from `src/app/db.rs` (`enum UploadStatus`). -/

inductive UploadStatus where
  | Initialized
  | Allocated
  | Writing
  | Publishing
  | Published
  | Hiding
  | Hidden
  | Missing
deriving DecidableEq, Repr, Fintype

/-- Model of `UploadStatus::can_transition_to` from `src/app/db.rs`: matches on the
target status, exactly as the Rust `match new_status` does. -/
def UploadStatus.can_transition_to (self new_status : UploadStatus) : Bool :=
  match new_status with
  | .Initialized => false
  | .Allocated => self == .Initialized || self == .Writing
  | .Writing => self == .Allocated
  | .Publishing => self == .Allocated || self == .Hidden
  | .Published => self == .Publishing
  | .Hiding => self == .Published
  | .Hidden => self == .Hiding
  | .Missing => true

/-- C1: `can_transition_to(current, target)` is true exactly on the edge
list of the specification: `Allocated ← Initialized | Writing`,
`Writing ← Allocated`, `Publishing ← Allocated | Hidden`,
`Published ← Publishing`, `Hiding ← Published`, `Hidden ← Hiding`,
`Missing ← any`, `Initialized ← nothing`; in particular
`can_transition_to(S, Initialized)` is false and
`can_transition_to(S, Missing)` is true for every state `S`. -/
theorem can_transition_to_spec :
    (∀ s t : UploadStatus, s.can_transition_to t = true ↔
      ((t = .Allocated ∧ (s = .Initialized ∨ s = .Writing)) ∨
       (t = .Writing ∧ s = .Allocated) ∨
       (t = .Publishing ∧ (s = .Allocated ∨ s = .Hidden)) ∨
       (t = .Published ∧ s = .Publishing) ∨
       (t = .Hiding ∧ s = .Published) ∨
       (t = .Hidden ∧ s = .Hiding) ∨
       t = .Missing)) ∧
    (∀ s : UploadStatus, s.can_transition_to .Initialized = false) ∧
    (∀ s : UploadStatus, s.can_transition_to .Missing = true) := by
  refine ⟨?_, ?_, ?_⟩ <;> decide

/-! ## Machine-integer casts appearing in the source -/

/-- The Rust cast `u64 as i64`: two's-complement reinterpretation. -/
def u64_as_i64 (n : Nat) : Int :=
  if n < 2 ^ 63 then (n : Int) else (n : Int) - 2 ^ 64

/-- The Rust cast `i64 as u64`: two's-complement reinterpretation. -/
def i64_as_u64 (z : Int) : Nat :=
  (z % 2 ^ 64).toNat

/-! ## Storage backend, from `src/app/storage.rs` and `src/utils/mod.rs`.

The two directories of `UploadStorage::FileSystem` (`private_path` and
`public_path`) are modelled as association lists from file name to file
content (list of bytes).  A `tokio::fs::File` handle is a name plus a
cursor position; `seek` moves only the cursor. -/

/-- One directory: file name ↦ content. -/
abbrev Dir : Type := List (String × List Nat)

/-- Model of `UploadStorage::FileSystem`, with the two directories made explicit
(`base_url` plays no role in the file operations). -/
structure Storage where
  privateFiles : Dir
  publicFiles : Dir
deriving Repr

def dirLookup (d : Dir) (name : String) : Option (List Nat) :=
  List.lookup name d

/-- Write (create or truncate-and-replace) a file in a directory. -/
def dirWrite (d : Dir) (name : String) (content : List Nat) : Dir :=
  (name, content) :: List.filter (fun e => e.1 ≠ name) d

/-- Erase a file from a directory. -/
def dirErase (d : Dir) (name : String) : Dir :=
  List.filter (fun e => e.1 ≠ name) d

/-- An open file handle: the name it refers to and the cursor position. -/
structure FileHandle where
  name : String
  pos : Nat
deriving Repr

/-- Model of `tokio::fs::File::create`: creates (or truncates) the file, empty,
with the cursor at 0. -/
def fileCreate (d : Dir) (name : String) : Dir × FileHandle :=
  (dirWrite d name [], ⟨name, 0⟩)

/-- Model of `file.seek(SeekFrom::Start(pos))`: moves the in-handle cursor only.
POSIX semantics: seeking beyond end-of-file does not change the file's
length; the length changes only on a subsequent write or `set_len`. -/
def fileSeekStart (h : FileHandle) (pos : Nat) : FileHandle :=
  ⟨h.name, pos⟩

/-- Lowercase hex digits. -/
def hexDigit (n : Nat) : Char :=
  if n < 10 then Char.ofNat (48 + n) else Char.ofNat (87 + n)

def hexDigitsAux : Nat → Nat → List Char
  | 0, _ => []
  | fuel + 1, n =>
    if n = 0 then [] else hexDigitsAux fuel (n / 16) ++ [hexDigit (n % 16)]

/-- Model of `format!("{:016x}", id)` on a `u64` value: 16-digit zero-padded
lowercase hexadecimal. -/
def hexPad16 (n : Nat) : String :=
  let ds := hexDigitsAux 64 n
  String.mk (List.replicate (16 - ds.length) '0' ++ ds)

/-- Model of `get_file_name` from `src/app/storage.rs`: 16-digit zero-padded hex of
`id` (an `i64`, formatted through its `u64` bit pattern), optionally
suffixed with `.extension`. -/
def get_file_name (id : Int) (extension : Option String) : String :=
  match extension with
  | some ext => hexPad16 (i64_as_u64 id) ++ "." ++ ext
  | none => hexPad16 (i64_as_u64 id)

/-- Model of `allocate_private_file` from `src/app/storage.rs`: `File::create` the
private file, then `seek(SeekFrom::Start(size))`, then return.  The seek
moves only the handle's cursor; nothing is written and `set_len` is not
called, so the file's content is whatever `File::create` left. -/
def allocate_private_file (id : Int) (extension : Option String) (size : Nat)
    (st : Storage) : Storage :=
  let name := get_file_name id extension
  let (d, file) := fileCreate st.privateFiles name
  let _file := fileSeekStart file size
  { st with privateFiles := d }

/-- Model of `tokio::fs::remove_file`: errors with `NotFound` when the file is
absent.  (Other I/O faults are not modelled here; the idempotence claim is
about the missing-file case.) -/
def remove_file (d : Dir) (name : String) : Except IOErrorKind Dir :=
  match dirLookup d name with
  | some _ => .ok (dirErase d name)
  | none => .error .NotFound

/-- Model of `try_remove_file` from `src/utils/mod.rs`: converts exactly the
`NotFound` error of `remove_file` into success. -/
def try_remove_file (d : Dir) (name : String) : Except IOErrorKind Dir :=
  match remove_file d name with
  | .error .NotFound => .ok d
  | other => other

/-- Model of `unpublish_file` from `src/app/storage.rs`: `try_remove_file` on the
public copy, then on the private copy. -/
def unpublish_file (id : Int) (extension : Option String) (st : Storage) :
    Except IOErrorKind Storage := do
  let name := get_file_name id extension
  let pubDir ← try_remove_file st.publicFiles name
  let privDir ← try_remove_file st.privateFiles name
  pure { privateFiles := privDir, publicFiles := pubDir }

/-- The empty storage. -/
def emptyStorage : Storage := ⟨[], []⟩

/-- C7 fails on the code: `allocate_private_file` creates the private file
but leaves it with length 0, not `size`.  At id 1, no extension, size 51,
starting from empty storage, the allocated file `0000000000000001` has
content of length 0, while the claim requires length 51. -/
theorem allocate_leaves_zero_length_file :
    (dirLookup (allocate_private_file 1 none 51 emptyStorage).privateFiles
        (get_file_name 1 none)).map List.length = some 0 ∧ (0 : Nat) ≠ 51 := by
  constructor
  · rfl
  · decide

theorem try_remove_file_total (d : Dir) (name : String) :
    ∃ d1, try_remove_file d name = .ok d1 := by
  unfold try_remove_file remove_file
  cases dirLookup d name <;> simp

/-- C8: `unpublish_file` is idempotent — on every storage state (in
particular when the public copy, the private copy, or both are already
absent) it succeeds, and running it again on the resulting state succeeds
as well; a second consecutive unpublish never errors. -/
theorem unpublish_file_idempotent (st : Storage) (id : Int)
    (extension : Option String) :
    ∃ st1, unpublish_file id extension st = .ok st1 ∧
      ∃ st2, unpublish_file id extension st1 = .ok st2 := by
  obtain ⟨pub1, hpub1⟩ := try_remove_file_total st.publicFiles (get_file_name id extension)
  obtain ⟨priv1, hpriv1⟩ := try_remove_file_total st.privateFiles (get_file_name id extension)
  refine ⟨⟨priv1, pub1⟩, ?_, ?_⟩
  · simp only [unpublish_file, hpub1, hpriv1]
    rfl
  · obtain ⟨pub2, hpub2⟩ := try_remove_file_total pub1 (get_file_name id extension)
    obtain ⟨priv2, hpriv2⟩ := try_remove_file_total priv1 (get_file_name id extension)
    refine ⟨⟨priv2, pub2⟩, ?_⟩
    simp only [unpublish_file, hpub2, hpriv2]
    rfl

/-! ## Upload ledger, from `src/app/db.rs`.

The ledger operations act on the single record addressed by the `id` the
callers pass; the database state threaded through the handlers is that
record (`Option UploadFull`, `none` for a missing row).  SQL execution
itself is not fallible in the model. -/

/-- Model of `UploadFull` from `src/app/db.rs`. -/
structure UploadFull where
  id : Int
  extension : Option String
  size : Int
  file_status : UploadStatus
  post_author_username : String
deriving DecidableEq, Repr

/-- Core of `try_set_upload_status` from `src/app/db.rs`: inside one
transaction, read the current status, consult `can_transition_to`, update
on success; `some ()` when the transition happened, `none` when it was
rejected (a no-op), paired with the status afterwards. -/
def try_set_status_on (new_status current : UploadStatus) :
    Option Unit × UploadStatus :=
  if current.can_transition_to new_status then (some (), new_status)
  else (none, current)

/-- Model of `try_set_upload_status` acting on the addressed record. -/
def try_set_upload_status (new_status : UploadStatus) (u : UploadFull) :
    Option Unit × UploadFull :=
  let (r, st) := try_set_status_on new_status u.file_status
  (r, { u with file_status := st })

/-- Model of `try_set_upload_status` on an optional record: the `fetch_one` of the
status would fail on a missing row; records are never deleted, and every
caller runs it on a record it has just loaded. -/
def db_try_set_upload_status (new_status : UploadStatus)
    (db : Option UploadFull) : Option Unit × Option UploadFull :=
  match db with
  | none => (none, none)
  | some u =>
    let (r, u1) := try_set_upload_status new_status u
    (r, some u1)

/-- Model of `try_set_upload_status_check_exists` from `src/app/db.rs`: fails
`DoesNotExist` when the row is missing; otherwise checks
`can_transition_to`, returning `some` pre-transition record on success and
`none` (a no-op) on rejection, paired with the database afterwards. -/
def try_set_upload_status_check_exists (new_status : UploadStatus)
    (db : Option UploadFull) :
    Except Error (Option UploadFull × Option UploadFull) :=
  match db with
  | none => .error .DoesNotExist
  | some u =>
    if u.file_status.can_transition_to new_status
    then .ok (some u, some { u with file_status := new_status })
    else .ok (none, some u)

/-! ## Chunk-write handler, from `src/app/api.rs`
(`upload_upload_by_chunk_put`). -/

/-- Model of `http_content_range::ContentRangeBytes`: `bytes first-last/total`. -/
structure ContentRangeBytes where
  first_byte : Nat
  last_byte : Nat
  complete_length : Nat
deriving DecidableEq, Repr

/-- Model of `http_content_range::ContentRangeUnbound`: `bytes first-last/*`. -/
structure ContentRangeUnbound where
  first_byte : Nat
  last_byte : Nat
deriving DecidableEq, Repr

/-- Model of `ContentRange` from `src/utils/content_range.rs`: `Either` a bounded
or an unbounded byte range. -/
inductive ContentRange where
  | bounded : ContentRangeBytes → ContentRange
  | unbound : ContentRangeUnbound → ContentRange
deriving DecidableEq, Repr

/-- Observable outcome of one chunk-write request: the handler's result,
the record afterwards, and whether `write_private_file` was invoked. -/
structure ChunkOutcome where
  result : Except Error Unit
  record : Option UploadFull
  wroteToStorage : Bool
deriving Repr

/-- Tail of `upload_upload_by_chunk_put` after the range check: the
`length = end_post + 1 - start_pos` computation, the body streamed into
storage by `write_private_file` (its outcome supplied as `writeResult`; on
failure the `?` propagates at once, with no status change), then the
unconditional `try_set_upload_status(id, Allocated)` whose `Option` result
is discarded. -/
def chunk_stream_and_finish (db1 : Option UploadFull)
    (start_pos end_post : Nat) (writeResult : Except IOErrorKind Unit) :
    ChunkOutcome :=
  let _length := end_post + 1 - start_pos
  match writeResult with
  | .error _ => ⟨.error .IOError, db1, true⟩
  | .ok _ =>
    let db2 := (db_try_set_upload_status .Allocated db1).2
    ⟨.ok (), db2, true⟩

/-- Model of `upload_upload_by_chunk_put` from `src/app/api.rs`: `get_upload`
(`DoesNotExist` on a missing record), the ownership check
(`AccessDenied`), the checked transition to `Writing` whose `Option`
result is discarded, the bounded-range total check against
`upload.size as u64` (reverting to `Allocated` and failing
`InvalidContentRange` on mismatch), then streaming and the final
transition back to `Allocated`. -/
def upload_upload_by_chunk_put (db : Option UploadFull) (username : String)
    (content_range : ContentRange) (writeResult : Except IOErrorKind Unit) :
    ChunkOutcome :=
  match db with
  | none => ⟨.error .DoesNotExist, none, false⟩
  | some upload =>
    if upload.post_author_username ≠ username then
      ⟨.error .AccessDenied, some upload, false⟩
    else
      match try_set_upload_status_check_exists .Writing (some upload) with
      | .error e => ⟨.error e, some upload, false⟩
      | .ok (_discarded, db1) =>
        match content_range with
        | .bounded bytes =>
          if bytes.complete_length ≠ i64_as_u64 upload.size then
            let db2 := (db_try_set_upload_status .Allocated db1).2
            ⟨.error .InvalidContentRange, db2, false⟩
          else
            chunk_stream_and_finish db1 bytes.first_byte bytes.last_byte
              writeResult
        | .unbound unbound =>
          chunk_stream_and_finish db1 unbound.first_byte unbound.last_byte
            writeResult

/-- A record in status `Hidden`, not writable; used to exhibit C2. -/
def hiddenUpload : UploadFull := ⟨7, none, 10, .Hidden, "alice"⟩

/-- C2 fails on the code: with the upload in status `Hidden` (no
transition to `Writing` is permitted), a well-formed chunk write by the
owner does not fail with a state conflict — the rejected transition's
result is discarded, the body is streamed into storage, and the handler
returns success with the record still `Hidden`.  (`Error` even has the
otherwise-unused `InvalidUploadState` conflict variant for this case.) -/
theorem chunk_put_ignores_rejected_transition :
    (upload_upload_by_chunk_put (some hiddenUpload) "alice"
        (.bounded ⟨0, 9, 10⟩) (.ok ())).result = .ok () ∧
    (upload_upload_by_chunk_put (some hiddenUpload) "alice"
        (.bounded ⟨0, 9, 10⟩) (.ok ())).wroteToStorage = true ∧
    (upload_upload_by_chunk_put (some hiddenUpload) "alice"
        (.bounded ⟨0, 9, 10⟩) (.ok ())).record = some hiddenUpload := by
  refine ⟨?_, ?_, ?_⟩ <;> rfl

/-- C4: a chunk write by the owner whose bounded range declares a total
different from the record's size fails `InvalidContentRange`, never
invokes the storage write, never leaves the record in `Writing`, and —
when the record was in the writable state `Allocated` — reverts it to
`Allocated`. -/
theorem chunk_put_range_mismatch (upload : UploadFull) (username : String)
    (bytes : ContentRangeBytes) (w : Except IOErrorKind Unit)
    (hname : upload.post_author_username = username)
    (hmm : bytes.complete_length ≠ i64_as_u64 upload.size) :
    (upload_upload_by_chunk_put (some upload) username (.bounded bytes) w).result
        = .error .InvalidContentRange ∧
    (upload_upload_by_chunk_put (some upload) username
        (.bounded bytes) w).wroteToStorage = false ∧
    (∀ r, (upload_upload_by_chunk_put (some upload) username
        (.bounded bytes) w).record = some r → r.file_status ≠ .Writing) ∧
    (upload.file_status = .Allocated →
      (upload_upload_by_chunk_put (some upload) username
          (.bounded bytes) w).record
        = some { upload with file_status := .Allocated }) := by
  obtain ⟨i, ext, sz, st, author⟩ := upload
  subst hname
  cases st <;>
    simp_all [upload_upload_by_chunk_put, try_set_upload_status_check_exists,
      db_try_set_upload_status, try_set_upload_status, try_set_status_on,
      UploadStatus.can_transition_to]

/-- Witness for C4 at a concrete input: upload of size 10 in `Allocated`,
bounded range declaring total 20. -/
theorem chunk_put_range_mismatch_witness :
    ((⟨7, none, 10, .Allocated, "alice"⟩ : UploadFull).post_author_username
        = "alice") ∧
    ((20 : Nat) ≠ i64_as_u64 (10 : Int)) ∧
    ((upload_upload_by_chunk_put (some ⟨7, none, 10, .Allocated, "alice"⟩)
        "alice" (.bounded ⟨0, 9, 20⟩) (.ok ())).result
      = .error .InvalidContentRange) :=
  ⟨rfl, by decide,
    (chunk_put_range_mismatch ⟨7, none, 10, .Allocated, "alice"⟩ "alice"
      ⟨0, 9, 20⟩ (.ok ()) rfl (by decide)).1⟩

/-- C5 fails on the code: owner writes a chunk to an `Allocated` upload
with a matching bounded range, and the storage write fails; the error
propagates immediately with no revert attempt, leaving the record in
`Writing` (a successful revert attempt from `Writing` would have left it
`Allocated`). -/
theorem chunk_put_write_failure_cex :
    (upload_upload_by_chunk_put (some ⟨7, none, 10, .Allocated, "alice"⟩)
        "alice" (.bounded ⟨0, 9, 10⟩) (.error .Other)).result
      = .error .IOError ∧
    (upload_upload_by_chunk_put (some ⟨7, none, 10, .Allocated, "alice"⟩)
        "alice" (.bounded ⟨0, 9, 10⟩) (.error .Other)).record
      = some ⟨7, none, 10, .Writing, "alice"⟩ := by
  refine ⟨?_, ?_⟩ <;> rfl

/-- C5 amended: only the bounded-range total-mismatch failure path reverts
the status; a storage failure while streaming the body propagates without
any revert, and the record is left in `Writing`. -/
theorem chunk_put_write_failure_leaves_writing (upload : UploadFull)
    (username : String) (cr : ContentRange) (k : IOErrorKind)
    (hname : upload.post_author_username = username)
    (hst : upload.file_status = .Allocated)
    (hcr : match cr with
           | .bounded b => b.complete_length = i64_as_u64 upload.size
           | .unbound _ => True) :
    upload_upload_by_chunk_put (some upload) username cr (.error k)
      = ⟨.error .IOError, some { upload with file_status := .Writing },
          true⟩ := by
  obtain ⟨i, ext, sz, st, author⟩ := upload
  subst hname
  simp only at hst
  subst hst
  cases cr with
  | bounded b =>
    simp only at hcr
    simp [upload_upload_by_chunk_put, try_set_upload_status_check_exists,
      db_try_set_upload_status, try_set_upload_status, try_set_status_on,
      chunk_stream_and_finish, UploadStatus.can_transition_to, hcr]
  | unbound u =>
    simp [upload_upload_by_chunk_put, try_set_upload_status_check_exists,
      db_try_set_upload_status, try_set_upload_status, try_set_status_on,
      chunk_stream_and_finish, UploadStatus.can_transition_to]

/-- Witness for the amended C5 at a concrete input. -/
theorem chunk_put_write_failure_leaves_writing_witness :
    ((⟨7, none, 10, .Allocated, "alice"⟩ : UploadFull).post_author_username
        = "alice") ∧
    ((⟨7, none, 10, .Allocated, "alice"⟩ : UploadFull).file_status
        = .Allocated) ∧
    upload_upload_by_chunk_put (some ⟨7, none, 10, .Allocated, "alice"⟩)
        "alice" (.unbound ⟨0, 9⟩) (.error .Other)
      = ⟨.error .IOError, some ⟨7, none, 10, .Writing, "alice"⟩, true⟩ :=
  ⟨rfl, rfl,
    chunk_put_write_failure_leaves_writing ⟨7, none, 10, .Allocated, "alice"⟩
      "alice" (.unbound ⟨0, 9⟩) .Other rfl rfl trivial⟩

/-! ## Create-upload handler, from `src/app/api.rs` (`upload_add_post`). -/

/-- Model of `UploadAddRequest` from `src/app/api.rs` (`size` is a `u64`). -/
structure UploadAddRequest where
  size : Nat
  extension : Option String
  post_id : Int
deriving DecidableEq, Repr

/-- Model of `EXTENSION_REGEX = ^[a-zA-Z0-9_]+$`. -/
def extension_regex_matches (s : String) : Bool :=
  s.length > 0 && s.data.all (fun c => c.isAlphanum || c == '_')

/-- The `validator` derive checks on `UploadAddRequest`:
`length(max = 32)` (`extension_too_long`) and the regex
(`extension_invalid_chars`), both on the optional extension.  Errors are
identified by their code strings. -/
def request_validate_errors (request : UploadAddRequest) : List String :=
  match request.extension with
  | none => []
  | some e =>
    (if e.length > 32 then ["extension_too_long"] else []) ++
    (if extension_regex_matches e then [] else ["extension_invalid_chars"])

/-- The validation-error set `upload_add_post` assembles: the
`request.validate()` errors, then `size_is_zero` when `size == 0`, else
`size_too_large` when `size` exceeds the configured maximum or
`i64::MAX`. -/
def upload_add_validation_errors (request : UploadAddRequest)
    (max_file_size : Nat) : List String :=
  request_validate_errors request ++
  (if request.size = 0 then ["size_is_zero"]
   else if request.size > max_file_size ∨ request.size > 2 ^ 63 - 1 then
     ["size_too_large"]
   else [])

/-- Result of a handler whose body can `unwrap` a `None`: success, an
error response, or a panic. -/
inductive HandlerResult (α : Type) where
  | ok : α → HandlerResult α
  | err : Error → HandlerResult α
  | panicked : HandlerResult α
deriving DecidableEq, Repr

/-- Observable outcome of one create-upload request: the handler's result,
whether `add_upload` inserted the ledger row, and the storage
afterwards. -/
structure AddOutcome where
  result : HandlerResult Int
  inserted : Bool
  storage : Storage
deriving Repr

/-- Model of `upload_add_post` from `src/app/api.rs`.  Environment parameters:
`postAuthor` is the author of post `request.post_id` (`none` when the post
does not exist), `newId` the id the INSERT assigns, `statusAtTransition`
the record's status at the moment the final
`try_set_upload_status(id, Allocated)` executes (`Initialized` unless a
concurrent actor intervened).  The handler builds `validation_errors`
exactly as the source does — and, exactly as the source does, never
returns or consults them; it proceeds to `add_upload` (insert in
`Initialized`), `allocate_private_file`, and the final transition, whose
`Option` result is `.unwrap()`ed: `None` panics. -/
def upload_add_post (request : UploadAddRequest) (max_file_size : Nat)
    (postAuthor : Option String) (username : String) (newId : Int)
    (statusAtTransition : UploadStatus) (st : Storage) : AddOutcome :=
  let _validation_errors := upload_add_validation_errors request max_file_size
  let _size := u64_as_i64 request.size
  match postAuthor with
  | none => ⟨.err .DoesNotExist, false, st⟩
  | some author =>
    if author ≠ username then ⟨.err .AccessDenied, false, st⟩
    else
      let st1 := allocate_private_file newId request.extension request.size st
      match (try_set_status_on .Allocated statusAtTransition).1 with
      | some _ => ⟨.ok newId, true, st1⟩
      | none => ⟨.panicked, true, st1⟩

/-- C3 fails on the code: a create-upload request with declared size 0 is
flagged by the validation logic (`size_is_zero`), but the assembled
validation errors are never returned — the handler inserts the ledger row,
allocates the file, and answers success. -/
theorem upload_add_ignores_validation_errors :
    upload_add_validation_errors ⟨0, none, 1⟩ 100 = ["size_is_zero"] ∧
    (upload_add_post ⟨0, none, 1⟩ 100 (some "alice") "alice" 5 .Initialized
        emptyStorage).result = .ok 5 ∧
    (upload_add_post ⟨0, none, 1⟩ 100 (some "alice") "alice" 5 .Initialized
        emptyStorage).inserted = true ∧
    dirLookup (upload_add_post ⟨0, none, 1⟩ 100 (some "alice") "alice" 5
        .Initialized emptyStorage).storage.privateFiles (get_file_name 5 none)
      = some [] := by
  refine ⟨?_, ?_, ?_, ?_⟩ <;> rfl

/-- C10 fails as stated: a concurrent move of the record out of
`Initialized` to `Writing` does not make the unwrap panic — `Writing` can
also transition to `Allocated`, so the handler still answers success. -/
theorem upload_add_unwrap_cex :
    (UploadStatus.Writing ≠ UploadStatus.Initialized) ∧
    (upload_add_post ⟨10, none, 1⟩ 100 (some "alice") "alice" 5 .Writing
        emptyStorage).result = .ok 5 := by
  refine ⟨by decide, ?_⟩
  rfl

/-- C10 amended: the unwrapped transition succeeds whenever the record's
status at that moment is still `Initialized` (so the unwrap does not
panic), and the handler panics exactly when that status can no longer
transition to `Allocated`, i.e. is neither `Initialized` nor `Writing`. -/
theorem upload_add_unwrap_panics_iff (request : UploadAddRequest)
    (max_file_size : Nat) (postAuthor : Option String) (username : String)
    (newId : Int) (statusAtTransition : UploadStatus) (st : Storage)
    (hauthor : postAuthor = some username) :
    ((statusAtTransition = .Initialized →
       (upload_add_post request max_file_size postAuthor username newId
           statusAtTransition st).result = .ok newId) ∧
     ((upload_add_post request max_file_size postAuthor username newId
           statusAtTransition st).result = .panicked ↔
       (statusAtTransition ≠ .Initialized ∧
        statusAtTransition ≠ .Writing))) := by
  subst hauthor
  cases statusAtTransition <;>
    simp [upload_add_post, try_set_status_on, UploadStatus.can_transition_to]

/-- Witness for the amended C10: status still `Initialized` succeeds;
status `Hiding` (claimed by the sweeper) panics. -/
theorem upload_add_unwrap_panics_iff_witness :
    (upload_add_post ⟨10, none, 1⟩ 100 (some "alice") "alice" 5 .Initialized
        emptyStorage).result = .ok 5 ∧
    (upload_add_post ⟨10, none, 1⟩ 100 (some "alice") "alice" 5 .Hiding
        emptyStorage).result = .panicked :=
  ⟨(upload_add_unwrap_panics_iff ⟨10, none, 1⟩ 100 (some "alice") "alice" 5
      .Initialized emptyStorage rfl).1 rfl,
   ((upload_add_unwrap_panics_iff ⟨10, none, 1⟩ 100 (some "alice") "alice" 5
      .Hiding emptyStorage rfl).2).mpr ⟨by decide, by decide⟩⟩

/-! ## Page iterator, from `src/utils/page_stream.rs` and
`src/utils/pagination.rs`. -/

/-- Model of `Page<T>` from `src/utils/pagination.rs`. -/
structure Page (T : Type) where
  items : List T
  page_id : Nat
  page_size : Nat
  page_count : Nat
  total_item_count : Nat
deriving Repr

/-- Observable behaviour of one run of the `iterate_pages` stream: the
pages yielded, the propagated error if any (the stream's final `Err`
item), the page indices requested from the underlying query in order, and
whether the run was cut short by the fuel bound rather than by the loop
itself. -/
structure IterOutcome (T : Type) where
  yielded : List (Page T)
  err : Option Error
  requested : List Nat
  outOfFuel : Bool
deriving Repr

/-- The loop of `iterate_pages` from `src/utils/page_stream.rs`, starting
at `page_id`: call `page_func`; on `Ok(page)` yield it and break when
`page_id + 1 >= page.page_count`, else continue with `page_id + 1`; on
`Err(PageDoesNotExist)` break cleanly; on any other error propagate it and
stop.  `fuel` bounds the number of query calls (the Rust stream is lazy;
nothing in the code bounds it). -/
def iterate_pages_aux {T : Type} (page_func : Nat → Except Error (Page T)) :
    Nat → Nat → IterOutcome T
  | 0, _ => ⟨[], none, [], true⟩
  | fuel + 1, page_id =>
    match page_func page_id with
    | .ok page =>
      if page_id + 1 ≥ page.page_count then ⟨[page], none, [page_id], false⟩
      else
        let r := iterate_pages_aux page_func fuel (page_id + 1)
        ⟨page :: r.yielded, r.err, page_id :: r.requested, r.outOfFuel⟩
    | .error e =>
      if e = .PageDoesNotExist then ⟨[], none, [page_id], false⟩
      else ⟨[], some e, [page_id], false⟩

/-- Model of `iterate_pages`: the loop starts at page 0. -/
def iterate_pages {T : Type} (page_func : Nat → Except Error (Page T))
    (fuel : Nat) : IterOutcome T :=
  iterate_pages_aux page_func fuel 0

theorem iterate_pages_aux_spec {T : Type}
    (f : Nat → Except Error (Page T)) :
    ∀ fuel i,
      ((iterate_pages_aux f fuel i).requested
          = List.range' i (iterate_pages_aux f fuel i).requested.length) ∧
      (∀ k (hk : k < (iterate_pages_aux f fuel i).yielded.length),
          f (i + k)
            = .ok ((iterate_pages_aux f fuel i).yielded.get ⟨k, hk⟩)) ∧
      (∀ e, (iterate_pages_aux f fuel i).err = some e →
          e ≠ .PageDoesNotExist ∧
          f (i + (iterate_pages_aux f fuel i).yielded.length) = .error e ∧
          (iterate_pages_aux f fuel i).requested.length
            = (iterate_pages_aux f fuel i).yielded.length + 1) ∧
      ((iterate_pages_aux f fuel i).outOfFuel = false →
       (iterate_pages_aux f fuel i).err = none →
       (f (i + (iterate_pages_aux f fuel i).yielded.length)
            = .error .PageDoesNotExist ∧
        (iterate_pages_aux f fuel i).requested.length
          = (iterate_pages_aux f fuel i).yielded.length + 1) ∨
       ((iterate_pages_aux f fuel i).requested.length
          = (iterate_pages_aux f fuel i).yielded.length ∧
        ∃ p, (iterate_pages_aux f fuel i).yielded.getLast? = some p ∧
          p.page_count ≤ i + (iterate_pages_aux f fuel i).yielded.length)) := by
  intro fuel
  induction fuel with
  | zero =>
    intro i
    refine ⟨rfl, ?_, ?_, ?_⟩
    · intro k hk; simp [iterate_pages_aux] at hk
    · intro e he; simp [iterate_pages_aux] at he
    · intro hf; simp [iterate_pages_aux] at hf
  | succ fuel ih =>
    intro i
    obtain ⟨ih1, ih2, ih3, ih4⟩ := ih (i + 1)
    cases hf : f i with
    | ok page =>
      by_cases hstop : i + 1 ≥ page.page_count
      · have hr : iterate_pages_aux f (fuel + 1) i = ⟨[page], none, [i], false⟩ := by
          simp [iterate_pages_aux, hf, hstop]
        rw [hr]
        refine ⟨by simp [List.range'], ?_, by simp, ?_⟩
        · intro k hk
          have hk0 : k = 0 := by
            simp only [List.length_cons, List.length_nil] at hk
            omega
          subst hk0
          simpa using hf
        · intro _ _
          right
          exact ⟨rfl, page, rfl, by simpa using hstop⟩
      · have hr : iterate_pages_aux f (fuel + 1) i =
            ⟨page :: (iterate_pages_aux f fuel (i + 1)).yielded,
             (iterate_pages_aux f fuel (i + 1)).err,
             i :: (iterate_pages_aux f fuel (i + 1)).requested,
             (iterate_pages_aux f fuel (i + 1)).outOfFuel⟩ := by
          simp [iterate_pages_aux, hf, hstop]
        rw [hr]
        refine ⟨?_, ?_, ?_, ?_⟩
        · simp only [List.length_cons, List.range'_succ]
          rw [← ih1]
        · intro k hk
          match k, hk with
          | 0, _ => simpa using hf
          | (k + 1), hk =>
            have hk' : k < (iterate_pages_aux f fuel (i + 1)).yielded.length := by
              simpa using hk
            have h2 := ih2 k hk'
            rw [show i + (k + 1) = i + 1 + k by omega]
            simpa using h2
        · intro e he
          obtain ⟨hne, hfe, hlen⟩ := ih3 e he
          refine ⟨hne, ?_, by simp [hlen]⟩
          rw [show i + (page :: (iterate_pages_aux f fuel (i + 1)).yielded).length
              = i + 1 + (iterate_pages_aux f fuel (i + 1)).yielded.length by
                simp; omega]
          exact hfe
        · intro hfu herr
          rcases ih4 hfu herr with ⟨hpde, hlen⟩ | ⟨hlen, p, hlast, hcount⟩
          · left
            refine ⟨?_, by simp [hlen]⟩
            rw [show i + (page :: (iterate_pages_aux f fuel (i + 1)).yielded).length
                = i + 1 + (iterate_pages_aux f fuel (i + 1)).yielded.length by
                  simp; omega]
            exact hpde
          · right
            refine ⟨by simp [hlen], p, ?_, ?_⟩
            · have hgl : (page :: (iterate_pages_aux f fuel (i + 1)).yielded).getLast?
                  = some p := by
                cases hy : (iterate_pages_aux f fuel (i + 1)).yielded with
                | nil => rw [hy] at hlast; simp at hlast
                | cons b l =>
                  rw [hy] at hlast
                  rw [List.getLast?_cons_cons]
                  exact hlast
              exact hgl
            · simp only [List.length_cons]
              omega
    | error e =>
      by_cases hpde : e = .PageDoesNotExist
      · subst hpde
        have hr : iterate_pages_aux f (fuel + 1) i = ⟨[], none, [i], false⟩ := by
          simp [iterate_pages_aux, hf]
        rw [hr]
        refine ⟨by simp [List.range'], by simp, by simp, ?_⟩
        · intro _ _
          left
          exact ⟨by simpa using hf, rfl⟩
      · have hr : iterate_pages_aux f (fuel + 1) i = ⟨[], some e, [i], false⟩ := by
          simp [iterate_pages_aux, hf, hpde]
        rw [hr]
        refine ⟨by simp [List.range'], by simp, ?_, by simp⟩
        · intro e' he'
          simp only [Option.some.injEq] at he'
          subst he'
          exact ⟨hpde, by simpa using hf, rfl⟩

/-- C9: a run of `iterate_pages` requests page 0 first and then
consecutive increments (`requested` is `0, 1, …`); every yielded page is
the successful answer to the corresponding query; a propagated error is
never `PageDoesNotExist`, comes from the last request, and aborts the
sequence (nothing is yielded for it); and a run that terminates cleanly
(not by fuel, no error) ended either because the last request returned
`PageDoesNotExist` (normal end of stream) or because the next page index
would reach the most recently reported `page_count`. -/
theorem iterate_pages_contract {T : Type}
    (f : Nat → Except Error (Page T)) (fuel : Nat) (out : IterOutcome T)
    (hout : out = iterate_pages f fuel) :
    (out.requested = List.range out.requested.length) ∧
    (∀ k (hk : k < out.yielded.length),
        f k = .ok (out.yielded.get ⟨k, hk⟩)) ∧
    (∀ e, out.err = some e →
        e ≠ .PageDoesNotExist ∧
        f out.yielded.length = .error e ∧
        out.requested.length = out.yielded.length + 1) ∧
    (out.outOfFuel = false → out.err = none →
      (f out.yielded.length = .error .PageDoesNotExist ∧
       out.requested.length = out.yielded.length + 1) ∨
      (out.requested.length = out.yielded.length ∧
       ∃ p, out.yielded.getLast? = some p ∧
         p.page_count ≤ out.yielded.length)) := by
  subst hout
  obtain ⟨h1, h2, h3, h4⟩ := iterate_pages_aux_spec f fuel 0
  refine ⟨?_, ?_, ?_, ?_⟩
  · rw [List.range_eq_range']
    exact h1
  · intro k hk
    simpa using h2 k hk
  · intro e he
    obtain ⟨hne, hfe, hlen⟩ := h3 e he
    exact ⟨hne, by simpa using hfe, hlen⟩
  · intro hfu herr
    rcases h4 hfu herr with ⟨hpde, hlen⟩ | ⟨hlen, p, hlast, hcount⟩
    · exact Or.inl ⟨by simpa using hpde, hlen⟩
    · exact Or.inr ⟨hlen, p, hlast, by simpa using hcount⟩

/-- A small concrete paginated query: 3 items, 2 pages of size 2. -/
def samplePageQuery : Nat → Except Error (Page Nat)
  | 0 => .ok ⟨[1, 2], 0, 2, 2, 3⟩
  | 1 => .ok ⟨[3], 1, 2, 2, 3⟩
  | _ => .error .PageDoesNotExist

/-- Witness for C9 at a concrete query: the iterator requests pages 0 and
1 and stops by the page-count rule. -/
theorem iterate_pages_contract_witness :
    (iterate_pages samplePageQuery 5 = iterate_pages samplePageQuery 5) ∧
    (iterate_pages samplePageQuery 5).requested
      = List.range (iterate_pages samplePageQuery 5).requested.length ∧
    (iterate_pages samplePageQuery 5).requested = [0, 1] :=
  ⟨rfl,
   (iterate_pages_contract samplePageQuery 5 (iterate_pages samplePageQuery 5)
      rfl).1,
   rfl⟩

/-! ## Sweeper, from `src/main.rs` (`run_cleanup_storage_with_pool`) with
its database statements from `src/app/db.rs`
(`list_old_in_progress_uploads_and_set_hiding`, `set_uploads_hidden`). -/

/-- A row of the `uploads` table as the sweeper sees it: `age` models
`AGE(CURRENT_TIMESTAMP, creation_date)` in the same units as `max_age`,
fixed for the duration of a pass. -/
structure SweepRec where
  id : Int
  extension : Option String
  age : Nat
  status : UploadStatus
deriving DecidableEq, Repr

/-- The candidate predicate of both SQL statements in
`list_old_in_progress_uploads_and_set_hiding`:
`file_status NOT IN ('PUBLISHED', 'HIDDEN', 'MISSING') AND
 (AGE(CURRENT_TIMESTAMP, creation_date) > max_age OR
  file_status = 'HIDING')`. -/
def sweep_candidate (max_age : Nat) (r : SweepRec) : Bool :=
  (r.status != .Published && r.status != .Hidden && r.status != .Missing) &&
  (decide (r.age > max_age) || r.status == .Hiding)

/-- Model of `ORDER BY id`: insertion sort by id. -/
def insertById (r : SweepRec) : List SweepRec → List SweepRec
  | [] => [r]
  | x :: xs => if r.id ≤ x.id then r :: x :: xs else x :: insertById r xs

def sortById : List SweepRec → List SweepRec
  | [] => []
  | x :: xs => insertById x (sortById xs)

/-- Model of `PageParams::get_limit_offset_and_page_id` from
`src/utils/pagination.rs`, in the `page_id = Some i` form the sweeper's
query uses: `InvalidPagination` on `page_size == 0`, `PageDoesNotExist`
when the requested page is not below the total page count, otherwise
`(limit, offset, page_id)`.  (The source's `i64` conversion and
`checked_mul` guards cannot fire on `Nat` values and are omitted.) -/
def get_limit_offset_and_page_id (page_id page_size total_page_count : Nat) :
    Except Error (Nat × Nat × Nat) :=
  if page_size = 0 then .error .InvalidPagination
  else if page_id < total_page_count then
    .ok (page_size, page_id * page_size, page_id)
  else .error .PageDoesNotExist

/-- Model of `list_old_in_progress_uploads_and_set_hiding` from `src/app/db.rs`:
count the candidates, derive the page count (`div_ceil`), resolve
limit/offset, then in one statement select the page of candidates ordered
by id and mark them `HIDING`; `RETURNING` yields the post-update rows.
Returns the page and the table afterwards. -/
def list_old_in_progress_uploads_and_set_hiding
    (page_id page_size max_age : Nat) (db : List SweepRec) :
    Except Error (Page SweepRec × List SweepRec) :=
  let candidates := db.filter (fun r => sweep_candidate max_age r)
  let total_item_count := candidates.length
  let page_count := (total_item_count + page_size - 1) / page_size
  match get_limit_offset_and_page_id page_id page_size page_count with
  | .error e => .error e
  | .ok (limit, offset, _pid) =>
    let selected := ((sortById candidates).drop offset).take limit
    let ids : List Int := selected.map (fun r => r.id)
    let db1 := db.map (fun r =>
      if r.id ∈ ids then { r with status := .Hiding } else r)
    let items := selected.map (fun r => { r with status := .Hiding })
    .ok (⟨items, page_id, page_size, page_count, total_item_count⟩, db1)

/-- Model of `set_uploads_hidden` from `src/app/db.rs`: an unconditional
`UPDATE uploads SET file_status = 'HIDDEN' WHERE id = ANY(ids)`. -/
def set_uploads_hidden (ids : List Int) (db : List SweepRec) :
    List SweepRec :=
  db.map (fun r => if r.id ∈ ids then { r with status := .Hidden } else r)

/-- The `for upload in items` loop of `run_cleanup_storage_with_pool`:
`unpublish_file(...)` on each item (outcome given by the oracle `unp`),
with `?` propagating the first failure at once.  Returns the loop's
outcome and the ids for which unpublish was invoked, in order. -/
def sweep_unpublish_items (unp : Int → Except IOErrorKind Unit) :
    List SweepRec → Except IOErrorKind Unit × List Int
  | [] => (.ok (), [])
  | r :: rest =>
    match unp r.id with
    | .error e => (.error e, [r.id])
    | .ok _ =>
      let (res, att) := sweep_unpublish_items unp rest
      (res, r.id :: att)

/-- Observable outcome of one sweep pass: the pass's result, the table
afterwards, the ids for which storage unpublish was invoked in order, and
whether the fuel bound (not the loop) ended the pass. -/
structure SweepOutcome where
  result : Except Error Unit
  db : List SweepRec
  unpublishAttempts : List Int
  outOfFuel : Bool
deriving Repr

/-- Model of `run_cleanup_storage_with_pool` from `src/main.rs`, unrolled with the
`iterate_pages` loop it drives: claim a page of candidates (already marked
`Hiding`), unpublish each item (`?` aborts the pass on the first failure,
the `io::Error` arriving as `Error::IO`), batch-set the page's ids to
`Hidden`, then continue or stop exactly as `iterate_pages` does
(`PageDoesNotExist` is a clean end; `page_id + 1 >= page_count` stops). -/
def run_cleanup_storage_aux (unp : Int → Except IOErrorKind Unit)
    (page_size max_age : Nat) :
    Nat → Nat → List SweepRec → SweepOutcome
  | 0, _, db => ⟨.ok (), db, [], true⟩
  | fuel + 1, page_id, db =>
    match list_old_in_progress_uploads_and_set_hiding page_id page_size
        max_age db with
    | .error .PageDoesNotExist => ⟨.ok (), db, [], false⟩
    | .error e => ⟨.error e, db, [], false⟩
    | .ok (page, db1) =>
      match sweep_unpublish_items unp page.items with
      | (.error _, att) => ⟨.error .IOError, db1, att, false⟩
      | (.ok _, att) =>
        let db2 := set_uploads_hidden (page.items.map (fun r => r.id)) db1
        if page_id + 1 ≥ page.page_count then ⟨.ok (), db2, att, false⟩
        else
          let rest := run_cleanup_storage_aux unp page_size max_age fuel
            (page_id + 1) db2
          ⟨rest.result, rest.db, att ++ rest.unpublishAttempts,
            rest.outOfFuel⟩

/-- One sweep pass, starting at page 0. -/
def run_cleanup_storage_with_pool (unp : Int → Except IOErrorKind Unit)
    (page_size max_age fuel : Nat) (db : List SweepRec) : SweepOutcome :=
  run_cleanup_storage_aux unp page_size max_age fuel 0 db

/-- Storage unpublish that fails on id 1 and succeeds elsewhere. -/
def sweepFailUnp : Int → Except IOErrorKind Unit :=
  fun i => if i = 1 then .error .Other else .ok ()

/-- C6 fails on the code: two stale `Allocated` uploads (ids 1 and 2,
`max_age = 0`, `page_size = 1`); unpublish of id 1 fails.  The claim says
the sweeper continues with the remaining items; instead the `?` aborts the
whole pass — the result is the propagated error, id 2 is never attempted
or even claimed, and id 1 is left in `Hiding`. -/
theorem sweep_unpublish_failure_aborts_pass_cex :
    (run_cleanup_storage_with_pool sweepFailUnp 1 0 5
        [⟨1, none, 1, .Allocated⟩, ⟨2, none, 1, .Allocated⟩]).result
      = .error .IOError ∧
    (run_cleanup_storage_with_pool sweepFailUnp 1 0 5
        [⟨1, none, 1, .Allocated⟩, ⟨2, none, 1, .Allocated⟩]).unpublishAttempts
      = [1] ∧
    (run_cleanup_storage_with_pool sweepFailUnp 1 0 5
        [⟨1, none, 1, .Allocated⟩, ⟨2, none, 1, .Allocated⟩]).db
      = [⟨1, none, 1, .Hiding⟩, ⟨2, none, 1, .Allocated⟩] := by
  refine ⟨?_, ?_, ?_⟩ <;> rfl

theorem sweep_unpublish_items_error (unp : Int → Except IOErrorKind Unit)
    (pre : List SweepRec) (failed : SweepRec) (post : List SweepRec)
    (k : IOErrorKind) (hpre : ∀ r ∈ pre, unp r.id = .ok ())
    (hfail : unp failed.id = .error k) :
    sweep_unpublish_items unp (pre ++ failed :: post)
      = (.error k, pre.map (fun r => r.id) ++ [failed.id]) := by
  induction pre with
  | nil => simp [sweep_unpublish_items, hfail]
  | cons r rest ih =>
    have hr := hpre r (by simp)
    have ih' := ih (fun x hx => hpre x (by simp [hx]))
    simp [sweep_unpublish_items, hr, ih']

/-- C6 amended: a storage unpublish failure for one claimed id aborts the
rest of the page and the rest of the pass — the error propagates as the
pass's result, ids after the failed one are not attempted, the batch
transition to `Hidden` is skipped, and the table is left as the claim
statement produced it (all claimed ids, the failed one included, in
`Hiding`). -/
theorem sweep_unpublish_failure_aborts_pass
    (unp : Int → Except IOErrorKind Unit)
    (page_size max_age fuel page_id : Nat) (db db1 : List SweepRec)
    (page : Page SweepRec) (pre : List SweepRec) (failed : SweepRec)
    (post : List SweepRec) (k : IOErrorKind)
    (hclaim : list_old_in_progress_uploads_and_set_hiding page_id page_size
        max_age db = .ok (page, db1))
    (hitems : page.items = pre ++ failed :: post)
    (hpre : ∀ r ∈ pre, unp r.id = .ok ())
    (hfail : unp failed.id = .error k) :
    run_cleanup_storage_aux unp page_size max_age (fuel + 1) page_id db
      = ⟨.error .IOError, db1, pre.map (fun r => r.id) ++ [failed.id],
          false⟩ := by
  have hsw := sweep_unpublish_items_error unp pre failed post k hpre hfail
  rw [← hitems] at hsw
  simp [run_cleanup_storage_aux, hclaim, hsw]

/-- Witness for the amended C6 at the concrete two-upload scenario. -/
theorem sweep_unpublish_failure_aborts_pass_witness :
    run_cleanup_storage_aux sweepFailUnp 1 0 5 0
        [⟨1, none, 1, .Allocated⟩, ⟨2, none, 1, .Allocated⟩]
      = ⟨.error .IOError,
          [⟨1, none, 1, .Hiding⟩, ⟨2, none, 1, .Allocated⟩], [1], false⟩ :=
  sweep_unpublish_failure_aborts_pass sweepFailUnp 1 0 4 0
    [⟨1, none, 1, .Allocated⟩, ⟨2, none, 1, .Allocated⟩]
    [⟨1, none, 1, .Hiding⟩, ⟨2, none, 1, .Allocated⟩]
    ⟨[⟨1, none, 1, .Hiding⟩], 0, 1, 2, 2⟩ [] ⟨1, none, 1, .Hiding⟩ [] .Other
    rfl rfl (by simp) rfl

end Archivanima
